import Mathlib

/-!
Verification development for the ng2rike HTTP-operation orchestration layer
(`src/bundles/ng2-rike.devel.js`).

The development shallowly embeds the parts of the source relevant to the
frozen claims:

* the error normalizer (`toErrorResponse`, `toFieldErrors`, `toFieldError`,
  `toFieldErrorArray`, `defaultErrorResponse`, `syntheticResponse`) over a
  universe `JsVal` of dynamic JavaScript values;
* URL resolution (`relativeUrl`);
* the protocol/data-type composition algebra (`Protocol` combinators
  `prepareRequestWith`, `writeRequestWith`, `readResponseWith`,
  `handleErrorWith`, the `HTTP_PROTOCOL` leaf, and the protocol selection
  performed by `RikeTargetImpl.operation`);
* the target lifecycle state machine (`RikeTargetImpl._cancel`,
  `RikeTargetImpl.cancel`, `RikeTargetImpl.startOperation`) together with the
  event model (`RikeEvent` hierarchy and the fields of `RikeCancelEvent`).
-/

namespace Ng2Rike

/-! ## Dynamic JavaScript values

`JsVal` models the JavaScript values that flow through the error normalizer.
A `response` value models an `@angular/http` `Response` instance: its four
arguments model `status`, `statusText`, the `Content-Type` header, and the
result of calling `json()` on it (`none` models a `json()` call that throws,
which `toErrorResponse` swallows).  An `errorResponse` value models an
`ErrorResponse` instance with its `response` and `errors` fields. -/

inductive JsVal : Type where
  | null : JsVal
  | undef : JsVal
  | str : String → JsVal
  | num : Int → JsVal
  | boolean : Bool → JsVal
  | arr : List JsVal → JsVal
  | obj : List (String × JsVal) → JsVal
  | response : Nat → Option String → Option String → Option JsVal → JsVal
  | errorResponse : JsVal → JsVal → JsVal

/-- Truthiness of a JavaScript value, as used by `!!x` and `if (x)`. -/
def truthy : JsVal → Bool
  | JsVal.null => false
  | JsVal.undef => false
  | JsVal.str s => s ≠ ""
  | JsVal.num n => n ≠ 0
  | JsVal.boolean b => b
  | _ => true

/-- Whether a value is `null` or `undefined` (the JavaScript loose test
`x == null`). -/
def isNullish : JsVal → Bool
  | JsVal.null => true
  | JsVal.undef => true
  | _ => false

/-- Whether a value is a string strictly equal (`===`) to `s`. -/
def isStrEq (v : JsVal) (s : String) : Bool :=
  match v with
  | JsVal.str t => t = s
  | _ => false

/-- Whether a value is a `Response` instance (`x instanceof Response`). -/
def isResponseVal : JsVal → Bool
  | JsVal.response _ _ _ _ => true
  | _ => false

/-- Whether a value is an `Array` instance (`x instanceof Array`). -/
def isArrVal : JsVal → Bool
  | JsVal.arr _ => true
  | _ => false

/-- Whether a value is a non-object scalar (`typeof x !== "object"` for the
values the normalizer distinguishes after the `null`/array tests). -/
def isScalar : JsVal → Bool
  | JsVal.str _ => true
  | JsVal.num _ => true
  | JsVal.boolean _ => true
  | _ => false

/-- Lookup of an own property in an object field list; absent properties read
as `undefined`. -/
def lookupField : List (String × JsVal) → String → JsVal
  | [], _ => JsVal.undef
  | (k, x) :: rest, name => if k = name then x else lookupField rest name

/-- Property access `v.name`.  Plain objects look the property up in their
field list; `ErrorResponse` instances expose their `response` and `errors`
fields; every other value (scalars, arrays, `Response` instances — none of
which own a `message`, `code`, `response` or `errors` property, the only
properties the embedded code reads) yields `undefined`. -/
def getProp : JsVal → String → JsVal
  | JsVal.obj fs, name => lookupField fs name
  | JsVal.errorResponse r _, "response" => r
  | JsVal.errorResponse _ e, "errors" => e
  | _, _ => JsVal.undef

/-- Text of an optional string, as interpolated by the `Response.toString`
template (a `null` field renders as the string "null"). -/
def optText : Option String → String
  | some s => s
  | none => "null"

mutual

/-- JavaScript string conversion `x.toString()` for the values of `JsVal`.
Strings convert to themselves, numbers and booleans to their decimal/keyword
form, arrays to their comma-joined elements (with `null`/`undefined` elements
rendering as empty, as `Array.prototype.join` does), plain objects and
`ErrorResponse` instances to "[object Object]", and `Response` instances via
the `Response.toString` template of `@angular/http`. -/
def jsToString : JsVal → String
  | JsVal.null => "null"
  | JsVal.undef => "undefined"
  | JsVal.str s => s
  | JsVal.num n => toString n
  | JsVal.boolean b => if b then "true" else "false"
  | JsVal.arr xs => arrToString xs
  | JsVal.obj _ => "[object Object]"
  | JsVal.response st stx _ _ =>
      "Response with status: " ++ toString st ++ " " ++ optText stx ++ " for URL: null"
  | JsVal.errorResponse _ _ => "[object Object]"

/-- Comma join of array elements for `Array.prototype.toString`. -/
def arrToString : List JsVal → String
  | [] => ""
  | x :: xs =>
      (match x with
       | JsVal.null => ""
       | JsVal.undef => ""
       | y => jsToString y)
      ++ (if xs.isEmpty then "" else ",") ++ arrToString xs

end

/-! ## Error normalizer

Embeds `toErrorResponse` and its helpers from `System.register("ng2-rike/error", ...)`
(source lines 1604–1754).  Field-error dictionaries are represented as
association lists `List (String × List JsVal)`; `toFieldErrors` returning
`none` models the source returning `undefined` (meaning "no errors"). -/

/-- `notEmptyError(item)`: an error item counts only if it is truthy and has a
truthy `message` or `code`. -/
def notEmptyError (item : JsVal) : Bool :=
  truthy item && (truthy (getProp item "message") || truthy (getProp item "code"))

/-- `toFieldError(data)`: single-error coercion.  A `null`/`undefined` input
yields an empty message; an object whose `message` is a string and whose
`code` is `null`/`undefined` or the literal string "string" passes through
unchanged (the source compares `fieldError.code === "string"`); an input with
a non-null `message` is coerced to string `code`/`message` fields; anything
else is stringified wholesale into the message. -/
def toFieldError (data : JsVal) : JsVal :=
  if isNullish data then JsVal.obj [("message", JsVal.str "")]
  else
    match getProp data "message", getProp data "code" with
    | JsVal.str m, code =>
        if isNullish code || isStrEq code "string" then data
        else JsVal.obj [("code", JsVal.str (jsToString code)), ("message", JsVal.str m)]
    | msg, code =>
        if isNullish msg then JsVal.obj [("message", JsVal.str (jsToString data))]
        else
          JsVal.obj
            [("code", if isNullish code then JsVal.undef else JsVal.str (jsToString code)),
             ("message", JsVal.str (jsToString msg))]

/-- `toFieldErrorArray(data)`: `null`/`undefined` give an empty array, arrays
coerce per element, and any other value coerces to a singleton, dropping empty
results in both cases. -/
def toFieldErrorArray (data : JsVal) : List JsVal :=
  match data with
  | JsVal.null => []
  | JsVal.undef => []
  | JsVal.arr xs => (xs.map toFieldError).filter notEmptyError
  | v => [toFieldError v].filter notEmptyError

/-- The `for (var field in errors)` loop of `toFieldErrors`: each field whose
coerced error array is non-empty is kept, in order. -/
def collectFieldErrors : List (String × JsVal) → List (String × List JsVal)
  | [] => []
  | (f, v) :: rest =>
      let ea := toFieldErrorArray v
      if ea.isEmpty then collectFieldErrors rest else (f, ea) :: collectFieldErrors rest

/-- Scalar branch of `toFieldErrors`: the stringified scalar becomes a single
message under the wildcard key, unless it is empty. -/
def scalarFieldErrors (data : JsVal) : Option (List (String × List JsVal)) :=
  let fes := [JsVal.obj [("message", JsVal.str (jsToString data))]].filter notEmptyError
  if fes.isEmpty then none else some [("*", fes)]

/-- `toFieldErrors(data)`: `none` models the source returning `undefined`
("no errors found").  `Response` instances never reach this function from
`toErrorResponse` (they are intercepted by an earlier branch), so their
unobservable handling is modelled as yielding no errors; an `ErrorResponse`
instance enumerates its two own properties, as `for...in` would. -/
def toFieldErrors (data : JsVal) : Option (List (String × List JsVal)) :=
  match data with
  | JsVal.null => none
  | JsVal.undef => none
  | JsVal.arr xs =>
      let fes := (xs.map toFieldError).filter notEmptyError
      if fes.isEmpty then none else some [("*", fes)]
  | JsVal.str s => scalarFieldErrors (JsVal.str s)
  | JsVal.num n => scalarFieldErrors (JsVal.num n)
  | JsVal.boolean b => scalarFieldErrors (JsVal.boolean b)
  | JsVal.obj fs =>
      let r := collectFieldErrors fs
      if r.isEmpty then none else some r
  | JsVal.errorResponse r e =>
      let res := collectFieldErrors [("response", r), ("errors", e)]
      if res.isEmpty then none else some res
  | JsVal.response _ _ _ _ => none

/-- Body extraction of the `Response` branch of `toErrorResponse`: the JSON
body is parsed only when the `Content-Type` header is exactly
"application/json"; a parse failure is swallowed and the body stays
`undefined`. -/
def responseBody (ct : Option String) (body : Option JsVal) : JsVal :=
  if ct = some "application/json" then
    match body with
    | some b => b
    | none => JsVal.undef
  else JsVal.undef

/-- Status text of `syntheticResponse(error)`: the stringified error, with
`null`/`undefined`/empty falling back to "Unknown error"
(`statusText || "Unknown error"`). -/
def syntheticStatusText (e : JsVal) : String :=
  match e with
  | JsVal.null => "Unknown error"
  | JsVal.undef => "Unknown error"
  | v => if jsToString v = "" then "Unknown error" else jsToString v

/-- `syntheticResponse(error)`: a status-500 error response carrying the
stringified error as status text, with no headers and no body. -/
def syntheticResponseVal (e : JsVal) : JsVal :=
  JsVal.response 500 (some (syntheticStatusText e)) none none

/-- JavaScript `toLowerCase()` (ASCII range, which is all the source compares
against). -/
def strToLower (s : String) : String := String.mk (s.data.map Char.toLower)

/-- Message built by `defaultErrorResponse`: "ERROR <status>", with
": <statusText>" appended only when the status text is truthy and not equal
to "ok" after lower-casing. -/
def defaultMessage (status : Nat) (statusText : Option String) : String :=
  let base := "ERROR " ++ toString status
  match statusText with
  | none => base
  | some st =>
      if st = "" then base else if strToLower st = "ok" then base else base ++ ": " ++ st

/-- The synthesized single field error of `defaultErrorResponse`. -/
def mkHttpFieldError (status : Nat) (statusText : Option String) : JsVal :=
  JsVal.obj
    [("code", JsVal.str ("HTTP" ++ toString status)),
     ("message", JsVal.str (defaultMessage status statusText))]

/-- Encoding of a field-error dictionary as the `errors` property value of an
`ErrorResponse`. -/
def encodeFieldErrors (fe : List (String × List JsVal)) : JsVal :=
  JsVal.obj (fe.map fun p => (p.1, JsVal.arr p.2))

/-- `defaultErrorResponse(response)`: wraps the response with the synthesized
wildcard field error. -/
def defaultErrorResponseVal (st : Nat) (stx ct : Option String) (body : Option JsVal) : JsVal :=
  JsVal.errorResponse (JsVal.response st stx ct body)
    (JsVal.obj [("*", JsVal.arr [mkHttpFieldError st stx])])

/-- `toErrorResponse(error)`.  The `Except` result models the one way the
source can raise: reading `.response` off a `null`/`undefined` input throws a
`TypeError`.  Ordered branches, as in the source: an `ErrorResponse` passes
through unchanged; a `Response` has its JSON body inspected for field errors,
falling back to `defaultErrorResponse`; an object duck-typed as
`{response: Response, errors: Array}` is wrapped directly; any other value is
mined for field errors (wrapped with a synthetic null-derived response) or
defaulted from a synthetic 500 response carrying its string form. -/
def toErrorResponse : JsVal → Except Unit JsVal
  | JsVal.errorResponse r e => Except.ok (JsVal.errorResponse r e)
  | JsVal.response st stx ct body =>
      match toFieldErrors (responseBody ct body) with
      | some fe =>
          Except.ok (JsVal.errorResponse (JsVal.response st stx ct body) (encodeFieldErrors fe))
      | none => Except.ok (defaultErrorResponseVal st stx ct body)
  | JsVal.null => Except.error ()
  | JsVal.undef => Except.error ()
  | v =>
      if isResponseVal (getProp v "response") && isArrVal (getProp v "errors") then
        Except.ok (JsVal.errorResponse (getProp v "response") (getProp v "errors"))
      else
        match toFieldErrors v with
        | some fe =>
            Except.ok (JsVal.errorResponse (syntheticResponseVal JsVal.null) (encodeFieldErrors fe))
        | none =>
            Except.ok (defaultErrorResponseVal 500 (some (syntheticStatusText v)) none none)

/-- Whether a value is already a normalized `ErrorResponse`. -/
def isNormalized : JsVal → Bool
  | JsVal.errorResponse _ _ => true
  | _ => false

/-! ## URL resolution

Embeds `relativeUrl(baseUrl, url)` from `System.register("ng2-rike/options", ...)`
(source lines 491–502).  The base URL is `Option String`, `none` modelling an
`undefined` base; the source guard `!baseUrl` is also satisfied by an empty
string. -/

/-- The character class `\w` of the source regular expression. -/
def isWordChar (c : Char) : Bool := c.isAlpha || c.isDigit || c = '_'

/-- Whether the character list begins with the given pattern. -/
def charsStartWith : List Char → List Char → Bool
  | _, [] => true
  | [], _ :: _ => false
  | c :: cs, d :: ds => c = d && charsStartWith cs ds

/-- The test `url[0] === "/"` (false on the empty string, where `url[0]` is
`undefined`). -/
def firstCharIs (s : String) (c : Char) : Bool :=
  match s.data with
  | [] => false
  | d :: _ => d = c

/-- The test `url.match(/^(\w*:)?\/\//)`: either a protocol-relative `//...`
URL, or a scheme prefix of word characters followed by `://`.  Because `\w`
contains neither `:` nor `/`, the greedy word prefix makes the regular
expression deterministic and this check equivalent to it. -/
def matchesFullUrl (u : String) : Bool :=
  charsStartWith u.data ['/', '/'] ||
  charsStartWith (u.data.dropWhile isWordChar) [':', '/', '/']

/-- `relativeUrl(baseUrl, url)`. -/
def relativeUrl (baseUrl : Option String) (url : String) : String :=
  match baseUrl with
  | none => url
  | some b =>
      if b = "" then url
      else if firstCharIs url '/' then url
      else if matchesFullUrl url then url
      else b ++ "/" ++ url

/-! ## Protocol composition algebra

Deep embedding of the `Protocol` decoration chain from
`System.register("ng2-rike/protocol", ...)` (source lines 585–833), over one
value type `V` (the source is untyped at runtime).  `Proto.http` stands for
the exported `HTTP_PROTOCOL` singleton, the value `RikeTargetImpl.operation`
compares against with `===`; `Proto.leaf` stands for any other base protocol
with the given four hooks.  The `writeRequest` hook of `HTTP_PROTOCOL`
(`new RequestOptions(options).merge({body: request})`) is abstracted by the
`m` parameter of `writeRequest`. -/

/-- The four hooks of a base protocol: `prepareRequest`, `writeRequest`,
`readResponse`, and the optional `handleError`. -/
structure Hooks (V : Type) where
  prep : V → V
  write : V → V → V
  read : V → V
  herr : Option (V → V)

/-- Protocol nodes: the `HTTP_PROTOCOL` leaf, arbitrary base leaves, and the
four decoration wrappers (`PrepareRequestProtocol`, `WriteRequestProtocol`,
`ReadResponseProtocol`, `HandleErrorProtocol`). -/
inductive Proto (V : Type) : Type where
  | http : Proto V
  | leaf : Hooks V → Proto V
  | prepareWith : Proto V → (V → V) → Bool → Proto V
  | writeWith : Proto V → (V → V → V) → Proto V
  | readWith : Proto V → (V → V) → Proto V
  | handleWith : Proto V → (V → V) → Proto V

variable {V : Type}

/-- The `prepareRequest` hook.  The base `Protocol.prepareRequest` is the
identity, so the `HTTP_PROTOCOL` leaf (which does not override it) prepares
by identity; `PrepareRequestProtocol` composes its function with the parent
hook before or after per its flag; the other wrappers delegate. -/
def prepareRequest : Proto V → V → V
  | Proto.http, o => o
  | Proto.leaf hk, o => hk.prep o
  | Proto.prepareWith p f aft, o =>
      if aft then f (prepareRequest p o) else prepareRequest p (f o)
  | Proto.writeWith p _, o => prepareRequest p o
  | Proto.readWith p _, o => prepareRequest p o
  | Proto.handleWith p _, o => prepareRequest p o

/-- The `writeRequest` hook; `m` models the body merge performed by the
`HTTP_PROTOCOL` leaf.  `WriteRequestProtocol` replaces the hook; the other
wrappers delegate. -/
def writeRequest (m : V → V → V) : Proto V → V → V → V
  | Proto.http, req, o => m req o
  | Proto.leaf hk, req, o => hk.write req o
  | Proto.prepareWith p _ _, req, o => writeRequest m p req o
  | Proto.writeWith _ f, req, o => f req o
  | Proto.readWith p _, req, o => writeRequest m p req o
  | Proto.handleWith p _, req, o => writeRequest m p req o

/-- The `readResponse` hook.  The `HTTP_PROTOCOL` leaf returns the raw
response; `ReadResponseProtocol` replaces the hook; the other wrappers
delegate. -/
def readResponse : Proto V → V → V
  | Proto.http, r => r
  | Proto.leaf hk, r => hk.read r
  | Proto.prepareWith p _ _, r => readResponse p r
  | Proto.writeWith p _, r => readResponse p r
  | Proto.readWith _ f, r => f r
  | Proto.handleWith p _, r => readResponse p r

/-- The `handleError` value of a node.  The base `Protocol` leaves it unset;
each of the prepare/write/read wrappers re-exposes the handler of its wrapped
node (`this.handleError = this._protocol.handleError` in their constructors);
`HandleErrorProtocol` sets its own. -/
def handleErrorOf : Proto V → Option (V → V)
  | Proto.http => none
  | Proto.leaf hk => hk.herr
  | Proto.prepareWith p _ _ => handleErrorOf p
  | Proto.writeWith p _ => handleErrorOf p
  | Proto.readWith p _ => handleErrorOf p
  | Proto.handleWith _ h => some h

/-- `Protocol.prepareRequestWith(prepare, after)`. -/
def Proto.prepareRequestWith (p : Proto V) (f : V → V) (aft : Bool) : Proto V :=
  Proto.prepareWith p f aft

/-- `Protocol.writeRequestWith(writeRequest)`. -/
def Proto.writeRequestWith (p : Proto V) (f : V → V → V) : Proto V :=
  Proto.writeWith p f

/-- `Protocol.readResponseWith(readResponse)`, including the override on
`ReadResponseProtocol` that rebinds the reader over the original wrapped
node. -/
def Proto.readResponseWith : Proto V → (V → V) → Proto V
  | Proto.readWith q _, f => Proto.readWith q f
  | p, f => Proto.readWith p f

/-- `Protocol.handleErrorWith(errorHandler)`, including the override on
`HandleErrorProtocol` that rebinds the handler over the original wrapped
node. -/
def Proto.handleErrorWith : Proto V → (V → V) → Proto V
  | Proto.handleWith q _, h => Proto.handleWith q h
  | p, h => Proto.handleWith p h

/-- The reference comparison `this.protocol === HTTP_PROTOCOL` of
`RikeTargetImpl.operation`: only the `HTTP_PROTOCOL` singleton satisfies
it. -/
def isHttp : Proto V → Bool
  | Proto.http => true
  | _ => false

/-- Protocol selection performed by `RikeTargetImpl.operation(name, protocol)`:
no requested protocol inherits the target protocol; a requested protocol over
the `HTTP_PROTOCOL` target protocol is used as is; otherwise the requested
protocol is wrapped so that the target protocol prepares the request first
(the `after` argument is left `undefined`, hence falsy). -/
def operationProtocol (targetProto : Proto V) (requested : Option (Proto V)) : Proto V :=
  match requested with
  | none => targetProto
  | some p =>
      if isHttp targetProto then p
      else p.prepareRequestWith (fun options => prepareRequest targetProto options) false

/-! ## Event model and target state machine

Embeds the event hierarchy of `System.register("ng2-rike/event", ...)`
(source lines 18–273) and the lifecycle methods of `RikeTargetImpl`
(source lines 1118–1292).  `O` is the type of operation identities, `V` the
type of opaque values (results, error payloads, thrown values).

A start event is determined by its operation, so the `_operation` record (the
source stores the `RikeOperationEvent` there) is modelled as the operation it
carries; `RikeCancelEvent` carries the operation of the cancelled record plus
its `cancelledBy` cause, which at both call sites is either the superseding
start event or `undefined`. -/

/-- The concrete event variants: `RikeOperationEvent` (start),
`RikeSuccessEvent`, `RikeErrorEvent`, and `RikeCancelEvent` with its optional
superseding start event. -/
inductive Ev (O V : Type) : Type where
  | start : O → Ev O V
  | success : O → V → Ev O V
  | error : O → V → Ev O V
  | cancel : O → Option O → Ev O V

/-- Dynamic values the `error`/`cancelledBy` getters can produce: an opaque
error payload, a reference to the start event of an operation, or the string
"cancel". -/
inductive ErrField (O V : Type) : Type where
  | ofV : V → ErrField O V
  | startEv : O → ErrField O V
  | cancelStr : ErrField O V

variable {O : Type}

/-- The `complete` getter: false on start events, true on success, error and
cancel events. -/
def completeField : Ev O V → Bool
  | Ev.start _ => false
  | _ => true

/-- The `cancel` getter: true only on `RikeCancelEvent`. -/
def cancelField : Ev O V → Bool
  | Ev.cancel _ _ => true
  | _ => false

/-- The `cancelledBy` getter: `RikeCancelEvent` returns its raw
`_cancelledBy` constructor argument; every other event returns
`undefined`. -/
def cancelledByField : Ev O V → Option (ErrField O V)
  | Ev.cancel _ cb => cb.map ErrField.startEv
  | _ => none

/-- The `error` getter: error events return their error, and
`RikeCancelEvent` overrides the getter to return `this.cancelledBy`. -/
def errField : Ev O V → Option (ErrField O V)
  | Ev.start _ => none
  | Ev.success _ _ => none
  | Ev.error _ e => some (ErrField.ofV e)
  | Ev.cancel _ cb => cb.map ErrField.startEv

/-- The `_error` slot assigned by the `RikeErrorEvent` base constructor.  The
`RikeCancelEvent` constructor passes `_cancelledBy || "cancel"` up, but its
own `error` getter shadows this slot, so the sentinel is never exposed. -/
def baseErrField : Ev O V → Option (ErrField O V)
  | Ev.error _ e => some (ErrField.ofV e)
  | Ev.cancel _ cb => some ((cb.map ErrField.startEv).getD ErrField.cancelStr)
  | _ => none

/-- State of a `RikeTargetImpl`: the `_operation` record (modelled by the
operation of the stored start event), the `_response` and `_subscr` handles
(modelled by opaque identifiers), and the `_observer`.  An attached observer
is modelled by its behaviour when `error` is delivered to it: `some none` is
an observer whose `error` callback returns normally, `some (some e)` one
whose `error` callback throws `e`. -/
structure Target (O V : Type) : Type where
  operation : Option O
  response : Option Nat
  observer : Option (Option V)
  subscr : Option Nat

/-- `currentOperation`: `this._operation && this._operation.operation`. -/
def currentOperation (t : Target O V) : Option O := t.operation

/-- One emission on the target event emitter `_rikeEvents`: `emit` models
`.emit(event)` and `err` models `.error(event)`. -/
inductive Emission (O V : Type) : Type where
  | emit : Ev O V → Emission O V
  | err : Ev O V → Emission O V

/-- One delivery to the in-flight response observer. -/
inductive ObsSig (O V : Type) : Type where
  | onError : Ev O V → ObsSig O V
  | onComplete : ObsSig O V

/-- Whether an emission carries a cancel event (on either channel). -/
def isCancelEmission : Emission O V → Bool
  | Emission.emit (Ev.cancel _ _) => true
  | Emission.err (Ev.cancel _ _) => true
  | _ => false

/-- Outcome of `_cancel`/`cancel`: the returned boolean or the propagated
thrown value, the post-state, and the ordered traces of emitter emissions and
observer deliveries produced by the call. -/
structure CancelOut (O V : Type) : Type where
  result : Except V Bool
  state : Target O V
  bus : List (Emission O V)
  obs : List (ObsSig O V)

/-- Outcome of `startOperation` (which returns no value). -/
structure StartOut (O V : Type) : Type where
  result : Except V Unit
  state : Target O V
  bus : List (Emission O V)
  obs : List (ObsSig O V)

/-- `RikeTargetImpl._cancel(cause)`.  Without an `_operation` record it
returns false untouched.  Otherwise it clears `_response`; if an observer is
attached it builds the cancel event, delivers it to the observer and then to
the emitter error channel — should the observer throw, a plain error event is
emitted instead and the exception is re-raised — and in all such cases clears
the record, completes and clears the observer; finally the transport
subscription, if any, is unsubscribed and cleared. -/
def cancelImpl (t : Target O V) (cause : Option O) : CancelOut O V :=
  match t.operation with
  | none => ⟨Except.ok false, t, [], []⟩
  | some a =>
      match t.observer with
      | none =>
          ⟨Except.ok true, { t with response := none, subscr := none }, [], []⟩
      | some obsBehaviour =>
          let cancelEv : Ev O V := Ev.cancel a cause
          match obsBehaviour with
          | none =>
              ⟨Except.ok true,
               { operation := none, response := none, observer := none, subscr := none },
               [Emission.err cancelEv],
               [ObsSig.onError cancelEv, ObsSig.onComplete]⟩
          | some e =>
              ⟨Except.error e,
               { operation := none, response := none, observer := none, subscr := none },
               [Emission.err (Ev.error a e)],
               [ObsSig.onError cancelEv, ObsSig.onComplete]⟩

/-- `RikeTargetImpl.cancel()`: `_cancel` with no cause. -/
def cancelTarget (t : Target O V) : CancelOut O V := cancelImpl t none

/-- `RikeTargetImpl.startOperation(operation)`: build the start event, cancel
any current operation with it as cause, then emit the start event and install
the new record.  If `_cancel` raises, the exception propagates before the
start event is emitted. -/
def startOperation (t : Target O V) (b : O) : StartOut O V :=
  let c := cancelImpl t (some b)
  match c.result with
  | Except.error e => ⟨Except.error e, c.state, c.bus, c.obs⟩
  | Except.ok _ =>
      ⟨Except.ok (),
       { c.state with operation := some b },
       c.bus ++ [Emission.emit (Ev.start b)],
       c.obs⟩

/-! ## Concrete instances used by witnesses -/

/-- A sample base protocol over `Nat` playing the target protocol role. -/
def tLeafNat : Proto Nat := Proto.leaf ⟨fun o => o + 1, fun r o => r + o, fun r => r + 2, none⟩

/-- A sample base protocol over `Nat` playing the operation protocol role. -/
def pLeafNat : Proto Nat := Proto.leaf ⟨fun o => o * 3, fun r o => r * o, fun r => r, some id⟩

/-! ## Theorems -/

/-- C9: `relativeUrl` returns the URL unchanged when the base is empty or
undefined, when the URL begins with "/", or when the URL matches the
scheme-prefixed or protocol-relative absolute pattern; otherwise it returns
`base ++ "/" ++ url`; and the four concrete examples hold. -/
theorem relativeUrl_spec (b : Option String) (u s : String) :
    ((b = none ∨ b = some "") → relativeUrl b u = u) ∧
    (firstCharIs u '/' = true → relativeUrl b u = u) ∧
    (matchesFullUrl u = true → relativeUrl b u = u) ∧
    (b = some s → s ≠ "" → firstCharIs u '/' = false → matchesFullUrl u = false →
      relativeUrl b u = s ++ "/" ++ u) ∧
    relativeUrl (some "/api") "users" = "/api/users" ∧
    relativeUrl (some "/api") "/users" = "/users" ∧
    relativeUrl (some "/api") "http://x/y" = "http://x/y" ∧
    relativeUrl none "users" = "users" := by
  refine ⟨?_, ?_, ?_, ?_, by decide, by decide, by decide, rfl⟩
  · rintro (rfl | rfl)
    · rfl
    · simp [relativeUrl]
  · intro h
    cases b with
    | none => rfl
    | some bb => simp [relativeUrl, h]
  · intro h
    cases b with
    | none => rfl
    | some bb =>
        by_cases hb : bb = ""
        · simp [relativeUrl, hb]
        · cases hf : firstCharIs u '/' <;> simp [relativeUrl, hb, hf, h]
  · rintro rfl hs h1 h2
    simp [relativeUrl, hs, h1, h2]

/-- Witness for C9 at concrete inputs. -/
theorem relativeUrl_spec_witness :
    relativeUrl (some "/api") "users" = "/api" ++ "/" ++ "users" ∧
    relativeUrl none "xy" = "xy" :=
  ⟨(relativeUrl_spec (some "/api") "users" "/api").2.2.2.1 rfl (by decide) (by decide) (by decide),
   (relativeUrl_spec none "xy" "x").1 (Or.inl rfl)⟩

/-- C5: `base.writeRequestWith(f).readResponseWith(g)` writes requests with
`f`, reads responses with `g`, and keeps the prepare hook and the error
handler of `base`; the combinators build new nodes and leave `base`
untouched. -/
theorem write_read_combinators {V : Type} (m : V → V → V) (base : Proto V)
    (f : V → V → V) (g : V → V) (req o r : V) :
    writeRequest m ((base.writeRequestWith f).readResponseWith g) req o = f req o ∧
    readResponse ((base.writeRequestWith f).readResponseWith g) r = g r ∧
    prepareRequest ((base.writeRequestWith f).readResponseWith g) o = prepareRequest base o ∧
    handleErrorOf ((base.writeRequestWith f).readResponseWith g) = handleErrorOf base :=
  ⟨rfl, rfl, rfl, rfl⟩

/-- C4: protocol selection at operation-binding time: no requested protocol
inherits the target protocol; over the `HTTP_PROTOCOL` target protocol the
requested protocol is used unchanged; otherwise the synthetic node prepares
requests by running the target protocol hook first and the operation protocol
hook on its result, while writing and reading delegate to the operation
protocol. -/
theorem operation_protocol_composition {V : Type} (t p : Proto V) (m : V → V → V)
    (o req r : V) :
    operationProtocol t none = t ∧
    (isHttp t = true → operationProtocol t (some p) = p) ∧
    (isHttp t = false →
      prepareRequest (operationProtocol t (some p)) o = prepareRequest p (prepareRequest t o) ∧
      writeRequest m (operationProtocol t (some p)) req o = writeRequest m p req o ∧
      readResponse (operationProtocol t (some p)) r = readResponse p r) := by
  refine ⟨rfl, ?_, ?_⟩
  · intro h
    simp [operationProtocol, h]
  · intro h
    simp [operationProtocol, h, Proto.prepareRequestWith, prepareRequest, writeRequest,
      readResponse]

/-- Witness for C4: both guarded branches at concrete protocols. -/
theorem operation_protocol_composition_witness :
    (operationProtocol (Proto.http : Proto Nat) (some pLeafNat) = pLeafNat) ∧
    prepareRequest (operationProtocol tLeafNat (some pLeafNat)) 5
      = prepareRequest pLeafNat (prepareRequest tLeafNat 5) :=
  ⟨(operation_protocol_composition Proto.http pLeafNat (fun x y => x + y) 5 0 0).2.1 rfl,
   ((operation_protocol_composition tLeafNat pLeafNat (fun x y => x + y) 5 0 0).2.2 rfl).1⟩

/-- C1: starting operation `b` while operation `a` is in flight (record
present, observer attached and well behaved) emits exactly one cancel event —
for `a`, with `cancelledBy` referencing the start event of `b` — and emits it
strictly before the start event of `b` on the same emitter. -/
theorem startOperation_cancels_before_start {O V : Type} (a b : O) (resp su : Option Nat) :
    ((startOperation (⟨some a, resp, some none, su⟩ : Target O V) b).bus.filter isCancelEmission
      = [Emission.err (Ev.cancel a (some b))]) ∧
    (∃ l₁ l₂ l₃, (startOperation (⟨some a, resp, some none, su⟩ : Target O V) b).bus
      = l₁ ++ Emission.err (Ev.cancel a (some b)) :: l₂ ++ Emission.emit (Ev.start b) :: l₃) :=
  ⟨rfl, ⟨[], [], [], rfl⟩⟩

/-- C2: `cancel()` on an idle target returns false, emits nothing and leaves
the state untouched; on an active target (record present, observer attached
and well behaved) it returns true, emits exactly one cancel event on the
target emitter, and leaves `currentOperation` undefined. -/
theorem cancel_idle_and_active {O V : Type} (a : O) (resp su : Option Nat)
    (obs : Option (Option V)) :
    ((cancelTarget (⟨none, resp, obs, su⟩ : Target O V)).result = Except.ok false ∧
     (cancelTarget (⟨none, resp, obs, su⟩ : Target O V)).bus = [] ∧
     (cancelTarget (⟨none, resp, obs, su⟩ : Target O V)).obs = [] ∧
     (cancelTarget (⟨none, resp, obs, su⟩ : Target O V)).state = ⟨none, resp, obs, su⟩) ∧
    ((cancelTarget (⟨some a, resp, some none, su⟩ : Target O V)).result = Except.ok true ∧
     (cancelTarget (⟨some a, resp, some none, su⟩ : Target O V)).bus
        = [Emission.err (Ev.cancel a none)] ∧
     currentOperation (cancelTarget (⟨some a, resp, some none, su⟩ : Target O V)).state
        = none) :=
  ⟨⟨rfl, rfl, rfl, rfl⟩, rfl, rfl, rfl⟩

/-- C10: `cancel()` on a target that holds an operation record but whose
wrapped response observable was never subscribed (no observer attached)
returns true, emits nothing, and leaves the record in place, so
`currentOperation` stays defined. -/
theorem cancel_without_observer {O V : Type} (a : O) (resp su : Option Nat) :
    (cancelTarget (⟨some a, resp, none, su⟩ : Target O V)).result = Except.ok true ∧
    (cancelTarget (⟨some a, resp, none, su⟩ : Target O V)).bus = [] ∧
    (cancelTarget (⟨some a, resp, none, su⟩ : Target O V)).obs = [] ∧
    currentOperation (cancelTarget (⟨some a, resp, none, su⟩ : Target O V)).state = some a :=
  ⟨rfl, rfl, rfl, rfl⟩

/-- C3 counterexample: a user-initiated `cancel()` on an active target emits
a cancel event whose `cancelledBy` getter yields `undefined`, not the
sentinel "cancel" the claim promises (the sentinel only reaches the shadowed
base-class error slot). -/
theorem cancelledBy_user_initiated_not_sentinel :
    (cancelTarget (⟨some "load", none, some none, none⟩ : Target String String)).bus
      = [Emission.err (Ev.cancel "load" none)] ∧
    cancelledByField (Ev.cancel (O := String) (V := String) "load" none)
      ≠ some ErrField.cancelStr :=
  ⟨rfl, fun h => Option.noConfusion h⟩

/-- C3 amended: every cancel event has `complete` true and `cancel` true, and
its `error` getter equals its `cancelledBy` getter; `cancelledBy` is the
start event of the superseding operation when one exists and is `undefined`
for a user-initiated cancellation, while the "cancel" sentinel is stored only
in the shadowed base-class error slot. -/
theorem cancel_event_fields {O V : Type} (a b : O) (resp su : Option Nat) :
    ((startOperation (⟨some a, resp, some none, su⟩ : Target O V) b).bus.head?
        = some (Emission.err (Ev.cancel a (some b)))) ∧
    completeField (Ev.cancel (O := O) (V := V) a (some b)) = true ∧
    cancelField (Ev.cancel (O := O) (V := V) a (some b)) = true ∧
    errField (Ev.cancel (O := O) (V := V) a (some b))
      = cancelledByField (Ev.cancel (O := O) (V := V) a (some b)) ∧
    cancelledByField (Ev.cancel (O := O) (V := V) a (some b)) = some (ErrField.startEv b) ∧
    ((cancelTarget (⟨some a, resp, some none, su⟩ : Target O V)).bus
        = [Emission.err (Ev.cancel a none)]) ∧
    errField (Ev.cancel (O := O) (V := V) a none)
      = cancelledByField (Ev.cancel (O := O) (V := V) a none) ∧
    cancelledByField (Ev.cancel (O := O) (V := V) a none) = none ∧
    baseErrField (Ev.cancel (O := O) (V := V) a none) = some ErrField.cancelStr ∧
    baseErrField (Ev.cancel (O := O) (V := V) a (some b)) = some (ErrField.startEv b) :=
  ⟨rfl, rfl, rfl, rfl, rfl, rfl, rfl, rfl, rfl, rfl⟩

/-- Helper for C6: a successful `toErrorResponse` result is always a
normalized `ErrorResponse`. -/
theorem toErrorResponse_ok_normalized (x r : JsVal) (h : toErrorResponse x = Except.ok r) :
    isNormalized r = true := by
  cases x <;> simp only [toErrorResponse] at h <;> repeat' split at h
  all_goals (try cases h)
  all_goals simp [isNormalized, defaultErrorResponseVal]

/-- Helper for C6: a normalized value is a fixed point of `toErrorResponse`. -/
theorem toErrorResponse_fixed (r : JsVal) (h : isNormalized r = true) :
    toErrorResponse r = Except.ok r := by
  cases r <;> first | rfl | simp [isNormalized] at h

/-- C6: `toErrorResponse` is idempotent — feeding a result (including the
propagated exception on `null`/`undefined` input) back through the normalizer
changes nothing, because an already-normalized value passes through
unchanged. -/
theorem toErrorResponse_idempotent (x : JsVal) :
    (toErrorResponse x).bind toErrorResponse = toErrorResponse x := by
  cases hx : toErrorResponse x with
  | error e => rfl
  | ok r =>
      have h2 := toErrorResponse_fixed r (toErrorResponse_ok_normalized x r hx)
      calc (Except.ok r).bind toErrorResponse = toErrorResponse r := rfl
        _ = Except.ok r := h2

/-- C7: when no field errors are extracted from a transport response,
`toErrorResponse` yields the single wildcard field error with code
`HTTP<status>` and message "ERROR <status>[: <statusText>]", the status-text
suffix being omitted exactly when the status text is absent (or empty) or
lower-cases to "ok"; in particular the 404 "Not Found" response yields
`{"*": [{code: "HTTP404", message: "ERROR 404: Not Found"}]}`. -/
theorem default_error_response_fields (st : Nat) (stx ct : Option String)
    (body : Option JsVal) (h : toFieldErrors (responseBody ct body) = none) :
    toErrorResponse (JsVal.response st stx ct body)
      = Except.ok (JsVal.errorResponse (JsVal.response st stx ct body)
          (JsVal.obj [("*", JsVal.arr
            [JsVal.obj [("code", JsVal.str ("HTTP" ++ toString st)),
                        ("message", JsVal.str (defaultMessage st stx))]])])) ∧
    (defaultMessage st stx =
      if stx = none ∨ stx = some "" ∨ stx.map strToLower = some "ok"
      then "ERROR " ++ toString st
      else "ERROR " ++ toString st ++ ": " ++ stx.getD "") ∧
    toErrorResponse (JsVal.response 404 (some "Not Found") none none)
      = Except.ok (JsVal.errorResponse (JsVal.response 404 (some "Not Found") none none)
          (JsVal.obj [("*", JsVal.arr
            [JsVal.obj [("code", JsVal.str "HTTP404"),
                        ("message", JsVal.str "ERROR 404: Not Found")]])])) := by
  refine ⟨?_, ?_, rfl⟩
  · simp only [toErrorResponse, h]
    rfl
  · cases stx with
    | none => simp [defaultMessage]
    | some s =>
        by_cases h1 : s = ""
        · subst h1; simp [defaultMessage]
        · by_cases h2 : strToLower s = "ok"
          · simp [defaultMessage, h1, h2]
          · simp [defaultMessage, h1, h2]

/-- Witness for C7 at the concrete 404 response. -/
theorem default_error_response_fields_witness :
    toErrorResponse (JsVal.response 404 (some "Not Found") none none)
      = Except.ok (JsVal.errorResponse (JsVal.response 404 (some "Not Found") none none)
          (JsVal.obj [("*", JsVal.arr
            [JsVal.obj [("code", JsVal.str "HTTP404"),
                        ("message", JsVal.str "ERROR 404: Not Found")]])])) :=
  (default_error_response_fields 404 (some "Not Found") none none rfl).2.2

/-- C8: field-error extraction coerces a non-empty scalar to a singleton
error list carrying the stringified scalar as message with no code property;
in particular `toErrorResponse` on `{"email": "required"}` yields field
errors `{"email": [{message: "required"}]}`, whose `code` reads as
`undefined`. -/
theorem scalar_field_error_coercion :
    (∀ v : JsVal, isScalar v = true → jsToString v ≠ "" →
      toFieldErrorArray v = [JsVal.obj [("message", JsVal.str (jsToString v))]] ∧
      getProp (toFieldError v) "code" = JsVal.undef) ∧
    toErrorResponse (JsVal.obj [("email", JsVal.str "required")])
      = Except.ok (JsVal.errorResponse (JsVal.response 500 (some "Unknown error") none none)
          (JsVal.obj [("email", JsVal.arr [JsVal.obj [("message", JsVal.str "required")]])])) ∧
    getProp (JsVal.obj [("message", JsVal.str "required")]) "code" = JsVal.undef := by
  refine ⟨?_, rfl, rfl⟩
  intro v hv hne
  cases v with
  | str s =>
      refine ⟨?_, rfl⟩
      have hs : s ≠ "" := hne
      simp [toFieldErrorArray, toFieldError, getProp, lookupField, isNullish, notEmptyError,
        truthy, jsToString, List.filter, hs]
  | num n =>
      refine ⟨?_, rfl⟩
      have hs : toString n ≠ "" := hne
      simp [toFieldErrorArray, toFieldError, getProp, lookupField, isNullish, notEmptyError,
        truthy, jsToString, List.filter, hs]
  | boolean bb =>
      refine ⟨?_, rfl⟩
      cases bb <;>
        simp [toFieldErrorArray, toFieldError, getProp, lookupField, isNullish, notEmptyError,
          truthy, jsToString, List.filter]
  | null => cases hv
  | undef => cases hv
  | arr xs => cases hv
  | obj fs => cases hv
  | response st stx ct bd => cases hv
  | errorResponse a e => cases hv

/-- Witness for C8 at the concrete scalar "required". -/
theorem scalar_field_error_coercion_witness :
    toFieldErrorArray (JsVal.str "required")
      = [JsVal.obj [("message", JsVal.str "required")]] ∧
    getProp (toFieldError (JsVal.str "required")) "code" = JsVal.undef :=
  scalar_field_error_coercion.1 (JsVal.str "required") rfl (by decide)

end Ng2Rike
